import Mathlib

/- Verification of the isolab dashboard core (src/dashboard/app.py).

   The embedding models the pure data and control flow of the handlers
   directly.  External effects -- the docker client, the privileged
   isolab.sh helper invoked through `_isolab_cmd`, the on-disk mode files
   under MODES_DIR -- are modelled as explicit Boolean/Option parameters
   describing the environment, and every externally visible call is
   recorded in an event trace in program order. -/

namespace Isolab

/-- Externally visible calls made by the lifecycle handlers, in program
order.  `setNet name mode` records an invocation of the privileged helper
(the python `_isolab_cmd("set-net", name, mode)`); the container events
record calls on the docker client; the mode events record writes and
deletions of files under MODES_DIR. -/
inductive Event where
  | setNet (name mode : String)
  | containerRun (name mode : String) (port : Nat)
  | containerStart (name : String)
  | containerStop (name : String)
  | containerRestart (name : String)
  | containerRemove (name : String)
  | modeWrite (name mode : String)
  | modeDelete (name : String)
  | modeDeleteAll
  deriving DecidableEq, Repr

/-- The JSON response of a handler: HTTP status, the `ok` flag, the
optional `error` string, and the optional `port` field (returned by the
create handler). -/
structure Response where
  status : Nat
  ok : Bool
  error : Option String
  port : Option Nat
  deriving DecidableEq, Repr

def okResp : Response := ⟨200, true, none, none⟩

def notFoundResp : Response := ⟨404, false, some "Not found", none⟩

/-- Result of one handler invocation: the event trace, the log lines
emitted via `app.logger`, and the JSON response. -/
structure Outcome where
  events : List Event
  logs : List String
  resp : Response
  deriving DecidableEq, Repr

/-- ASCII whitespace, as stripped by python `str.strip` (which also
strips further Unicode whitespace; the embedding models ASCII input). -/
def pyWhitespace (c : Char) : Bool :=
  c == ' ' || c == '\t' || c == '\n' || c == '\r' || c == '\x0b' || c == '\x0c'

def pyStripL (l : List Char) : List Char :=
  ((l.dropWhile pyWhitespace).reverse.dropWhile pyWhitespace).reverse

/-- Python `str.strip()`: drop leading and trailing whitespace. -/
def pyStrip (s : String) : String :=
  ⟨pyStripL s.toList⟩

/-- Mode resolution shared by the start and restart handlers: read the
mode file if it exists (python `open(mode_file).read().strip()`), else
default to "none".  `modeFile` is the raw file content when the file
exists. -/
def resolvePersistedMode (modeFile : Option String) : String :=
  match modeFile with
  | some s => pyStrip s
  | none => "none"

/-- Handler `api_stop` (POST /api/lab/name/stop).  `present` says whether
the docker client finds the container (otherwise `containers.get` raises
NotFound and the handler returns 404).  `helperOk` is the success flag of
the `_isolab_cmd` call; the python code discards that return value, which
is why the parameter is not consulted anywhere in the body. -/
def api_stop (name : String) (present : Bool) (helperOk : Bool) : Outcome :=
  if present then
    ⟨[Event.setNet name "open", Event.containerStop name], [], okResp⟩
  else
    ⟨[], [], notFoundResp⟩

/-- Handler `api_start` (POST /api/lab/name/start): start the container,
then resolve the persisted mode from the mode file only (never from the
container label) and apply it via the helper. -/
def api_start (name : String) (present : Bool) (modeFile : Option String)
    (helperOk : Bool) : Outcome :=
  if present then
    ⟨[Event.containerStart name,
      Event.setNet name (resolvePersistedMode modeFile)], [], okResp⟩
  else
    ⟨[], [], notFoundResp⟩

/-- Handler `api_restart` (POST /api/lab/name/restart): clear rules with
mode "open", restart the container, re-resolve the persisted mode from
the mode file (default "none") and reapply it.  Both helper results are
discarded by the python code. -/
def api_restart (name : String) (present : Bool) (modeFile : Option String)
    (helperClearOk helperApplyOk : Bool) : Outcome :=
  if present then
    ⟨[Event.setNet name "open", Event.containerRestart name,
      Event.setNet name (resolvePersistedMode modeFile)], [], okResp⟩
  else
    ⟨[], [], notFoundResp⟩

/-- Handler `api_remove` (POST /api/lab/name/remove): clear rules,
force-remove the container, delete the mode file if present. -/
def api_remove (name : String) (present : Bool) (modeFilePresent : Bool)
    (helperOk : Bool) : Outcome :=
  if present then
    ⟨[Event.setNet name "open", Event.containerRemove name] ++
      (if modeFilePresent then [Event.modeDelete name] else []), [], okResp⟩
  else
    ⟨[], [], notFoundResp⟩

/- Temporal operators over event traces. -/

/-- Some event of the trace satisfies `p`. -/
def occurs (tr : List Event) (p : Event → Bool) : Bool :=
  tr.any p

def eachPrecededByAux (seenPre : Bool) (tgt pre : Event → Bool) :
    List Event → Bool
  | [] => true
  | e :: es => (!(tgt e) || seenPre) && eachPrecededByAux (seenPre || pre e) tgt pre es

/-- Every occurrence of `tgt` in the trace is strictly preceded by an
occurrence of `pre`. -/
def eachPrecededBy (tr : List Event) (tgt pre : Event → Bool) : Bool :=
  eachPrecededByAux false tgt pre tr

/-- Every occurrence of `tgt` in the trace is strictly followed by an
occurrence of `post`. -/
def eachFollowedBy (tr : List Event) (tgt post : Event → Bool) : Bool :=
  eachPrecededByAux false tgt post tr.reverse

def noneAfterAux (seenTgt : Bool) (tgt p : Event → Bool) : List Event → Bool
  | [] => true
  | e :: es => (!(seenTgt && p e)) && noneAfterAux (seenTgt || tgt e) tgt p es

/-- No event satisfying `p` occurs strictly after an occurrence of `tgt`. -/
def noneAfter (tr : List Event) (tgt p : Event → Bool) : Bool :=
  noneAfterAux false tgt p tr

/- Event predicates. -/

def isClearCall (name : String) : Event → Bool
  | .setNet n m => n == name && m == "open"
  | _ => false

def isSetNetMode (name mode : String) : Event → Bool
  | .setNet n m => n == name && m == mode
  | _ => false

def isStopCall (name : String) : Event → Bool
  | .containerStop n => n == name
  | _ => false

def isRestartCall (name : String) : Event → Bool
  | .containerRestart n => n == name
  | _ => false

def isRemoveCall (name : String) : Event → Bool
  | .containerRemove n => n == name
  | _ => false

def isRunCall (name : String) : Event → Bool
  | .containerRun n _ _ => n == name
  | _ => false

/- Mode tables.  `label_map` is the dict used by `get_sandboxes` to map a
legacy container label when no mode file exists; `create_mode_map` is the
dict used by `api_create` to normalize the requested network mode.  Both
are resolved through `dict.get(key, "none")`, modelled by an association
list lookup with default "none". -/

def label_map : List (String × String) :=
  [("--net=none", "none"), ("none", "none"),
   ("--net=packages", "web"), ("packages", "web"),
   ("--net=full", "open"), ("full", "open"), ("open", "open"),
   ("--net=web", "web"), ("web", "web")]

/-- `label_map.get(label, "none")` in `get_sandboxes`. -/
def labelResolve (label : String) : String :=
  (label_map.lookup label).getD "none"

def create_mode_map : List (String × String) :=
  [("none", "none"), ("packages", "packages"), ("web", "web"),
   ("open", "open"), ("full", "open")]

/-- `mode_map.get(net, "none")` in `api_create`. -/
def createResolveMode (net : String) : String :=
  (create_mode_map.lookup net).getD "none"

/-- Mode shown by the registry read path `get_sandboxes`: the mode file
takes precedence (content stripped); otherwise the container label
(`labels.get("isolab.net", "none")`) is mapped through `label_map`. -/
def registryNetMode (modeFile : Option String) (label : Option String) : String :=
  match modeFile with
  | some s => pyStrip s
  | none => labelResolve (label.getD "none")

/- Name validation in `api_create`.  The python test is
`not name or not name.replace("-", "").replace("_", "").isalnum()`.
The validation is modelled at the character-list level: `replace(c, "")`
for a one-character pattern removes every occurrence of that character,
and `str.isalnum` is nonempty-and-all-alphanumeric.  Python `isalnum` is
Unicode-aware; `pyIsAlnumChar` models its restriction to ASCII, and the
theorems about acceptance are stated for ASCII names only. -/

def pyIsAlnumChar (c : Char) : Bool :=
  c.isAlpha || c.isDigit

def pyIsAlnumL (l : List Char) : Bool :=
  !l.isEmpty && l.all pyIsAlnumChar

def validNameL (l : List Char) : Bool :=
  !l.isEmpty &&
    pyIsAlnumL ((l.filter (fun c => c != '-')).filter (fun c => c != '_'))

def validName (name : String) : Bool :=
  validNameL name.toList

/-- Spec-side definition (from the words of the spec, for comparison with
the code): the name is non-empty and matches `[A-Za-z0-9_-]+`. -/
def specNamePattern (name : String) : Bool :=
  !name.toList.isEmpty &&
    name.toList.all (fun c => c.isAlpha || c.isDigit || c == '-' || c == '_')

/-- Port allocation in `api_create`: scan upward from the base port,
skipping ports bound by existing sandboxes (`while port in used_ports`).
`used` models the python set of bound host ports.  The fuel argument is
`used.length + 1`: every iteration that advances removes one element of
`used` from consideration, so the fuel-zero branch is unreachable. -/
def allocatePortAux : Nat → List Nat → Nat → Nat
  | 0, _, port => port
  | fuel + 1, used, port =>
    if port ∈ used then allocatePortAux fuel (used.erase port) (port + 1)
    else port

def allocatePort (used : List Nat) (base : Nat) : Nat :=
  allocatePortAux (used.length + 1) used base

/-- Environment of one `api_create` request: whether a container with the
requested name already exists, whether the SSH public key file is
readable, the host ports already bound by existing sandboxes, and whether
the three effectful steps fail (container run raising, the mode-file
write raising, the helper returning failure).  The helper flag is never
consulted: the python code discards the `_isolab_cmd` result. -/
structure CreateEnv where
  nameExists : Bool
  sshKeyPresent : Bool
  usedPorts : List Nat
  runFails : Bool
  modeWriteFails : Bool
  helperOk : Bool
  deriving DecidableEq, Repr

/-- Handler `api_create` (POST /api/lab/create).  Mirrors the python
control flow: strip and validate the name (400), reject an existing name
(409), require the SSH key (500), allocate a port, normalize the mode,
then run the container, write the mode file and invoke the helper inside
one try block whose except clause logs and returns a 500. -/
def api_create (rawName : String) (net? : Option String) (env : CreateEnv) :
    Outcome :=
  let name := pyStrip rawName
  let net := net?.getD "none"
  if !(validName name) then
    ⟨[], [], ⟨400, false, some "Invalid name", none⟩⟩
  else if env.nameExists then
    ⟨[], [], ⟨409, false, some "Lab already exists", none⟩⟩
  else if !env.sshKeyPresent then
    ⟨[], [], ⟨500, false, some "SSH key not found", none⟩⟩
  else
    let port := allocatePort env.usedPorts 2200
    let mode := createResolveMode net
    if env.runFails then
      ⟨[], ["Failed to create lab " ++ name],
        ⟨500, false, some "Internal error creating lab", none⟩⟩
    else if env.modeWriteFails then
      ⟨[Event.containerRun name mode port], ["Failed to create lab " ++ name],
        ⟨500, false, some "Internal error creating lab", none⟩⟩
    else
      ⟨[Event.containerRun name mode port, Event.modeWrite name mode,
        Event.setNet name mode], [], ⟨200, true, none, some port⟩⟩

/-- One owned container seen by `api_nuke`: its name (prefix stripped),
whether `c.remove(force=True)` raises, and the helper outcome (discarded
by the python code). -/
structure NukeContainer where
  name : String
  removeFails : Bool
  helperOk : Bool
  deriving DecidableEq, Repr

/-- The loop body of `api_nuke`: for each container, invoke the helper
with mode "open" and force-remove it.  There is no try/except around the
loop, so a raising `c.remove` propagates out of the handler (modelled by
returning `none` as the removed count: the request ends in a 500 and the
mode files are never cleaned). -/
def nukeLoop : List NukeContainer → List Event → Nat → List Event × Option Nat
  | [], evs, count => (evs, some count)
  | c :: cs, evs, count =>
    let evs2 := evs ++ [Event.setNet c.name "open"]
    if c.removeFails then (evs2, none)
    else nukeLoop cs (evs2 ++ [Event.containerRemove c.name]) (count + 1)

/-- Handler `api_nuke` (POST /api/lab/nuke): run the loop, then (only if
no exception escaped) delete every mode file and return the count. -/
def api_nuke (cs : List NukeContainer) : List Event × Option Nat :=
  match nukeLoop cs [] 0 with
  | (evs, some count) => (evs ++ [Event.modeDeleteAll], some count)
  | (evs, none) => (evs, none)

/- Rate limiter (`rate_limit_check`).  Timestamps are `time.time()`
floats, modelled as rationals.  Python `int(...)` truncates toward zero,
modelled by `pyInt`. -/

/-- Python `int()` on a rational: truncation toward zero. -/
def pyInt (q : ℚ) : ℤ :=
  if 0 ≤ q then ⌊q⌋ else ⌈q⌉

/-- `rate_limit_check(key, max_requests, window_seconds)` for one key:
`hist` is the stored timestamp list for the key, `now` the current time.
Prune entries with `now - t < window_seconds` failing, then reject when
the count reached `max_requests` with
`retry_after = int(window_seconds - (now - oldest)) + 1` where `oldest`
is the first retained timestamp; otherwise append `now` and admit.
(The `headD 0` default is unreachable for `1 ≤ maxRequests`; with
`maxRequests = 0` and an empty pruned list the python code would raise
IndexError, a configuration no caller uses.) -/
def rate_limit_check (hist : List ℚ) (now : ℚ) (maxRequests : Nat)
    (window : ℚ) : (Bool × ℤ) × List ℚ :=
  let pruned := hist.filter (fun t => decide (now - t < window))
  if maxRequests ≤ pruned.length then
    ((false, pyInt (window - (now - pruned.headD 0)) + 1), pruned)
  else
    ((true, 0), pruned ++ [now])

/-- A sequence of checks against one key, threading the stored list. -/
def rateLoop (maxRequests : Nat) (window : ℚ) :
    List ℚ → List ℚ → List (Bool × ℤ) × List ℚ
  | hist, [] => ([], hist)
  | hist, t :: ts =>
    let r := rate_limit_check hist t maxRequests window
    let rest := rateLoop maxRequests window r.2 ts
    (r.1 :: rest.1, rest.2)

/-- Run a sequence of checks at the given times starting from an empty
bucket; returns the per-check results and the final stored list. -/
def runChecks (times : List ℚ) (maxRequests : Nat) (window : ℚ) :
    List (Bool × ℤ) × List ℚ :=
  rateLoop maxRequests window [] times

/- The request gate `require_auth` and the logout handler. -/

/-- One incoming request as seen by `require_auth`: its path and method,
whether the session carries the authenticated flag, the X-CSRF-Token
header (empty when absent), and the CSRF token stored in the session. -/
structure Request where
  path : String
  method : String
  authenticated : Bool
  csrfHeader : String
  sessionCsrf : String
  deriving DecidableEq, Repr

inductive GateResult where
  | proceed
  | unauthorizedJson
  | redirectLogin
  | csrfRejected
  | rateLimited
  deriving DecidableEq, Repr

/-- The `require_auth` before-request gate.  Returns the gate decision
together with a flag recording whether the CSRF token comparison was
performed (the python code reaches the token check exactly when the path
is not exempt, the session is authenticated, and the method is POST).
`createAllowed` is the rate-limiter verdict for the create endpoint. -/
def require_auth (r : Request) (createAllowed : Bool) : GateResult × Bool :=
  if r.path == "/login" || r.path == "/favicon.ico" then
    (GateResult.proceed, false)
  else if !r.authenticated then
    (if r.path.startsWith "/api/" then (GateResult.unauthorizedJson, false)
     else (GateResult.redirectLogin, false))
  else if r.method == "POST" then
    if r.csrfHeader == "" || !(r.csrfHeader == r.sessionCsrf) then
      (GateResult.csrfRejected, true)
    else if r.path == "/api/lab/create" && !createAllowed then
      (GateResult.rateLimited, true)
    else (GateResult.proceed, true)
  else
    (GateResult.proceed, false)

/-- The server-side session. -/
structure Session where
  authenticated : Bool
  username : String
  csrfToken : String
  deriving DecidableEq, Repr

def Session.cleared : Session := ⟨false, "", ""⟩

/-- Handler for GET /logout: `session.clear()` then redirect to /login.
It clears the session state unconditionally. -/
def logoutHandler (s : Session) : Session × String :=
  (Session.cleared, "/login")

/-- The request a browser sends for GET /logout under session `s`,
with no CSRF token supplied. -/
def logoutRequest (s : Session) : Request :=
  ⟨"/logout", "GET", s.authenticated, "", s.csrfToken⟩

/-- C1: in the stop handler the privileged helper is invoked with the
clearing mode "open" strictly before the container stop call (and never
again after it), and in the restart handler the clearing call with mode
"open" strictly precedes the container restart call while the helper call
with the mode resolved from the persisted mode file (default "none" when
the file is absent) strictly follows it -- the clearing call and the
reapply call never occur in the reverse order. -/
theorem stop_restart_helper_ordering (name : String) (mf : Option String)
    (h1 h2 h3 : Bool) :
    occurs (api_stop name true h1).events (isStopCall name) = true ∧
    eachPrecededBy (api_stop name true h1).events (isStopCall name)
      (isClearCall name) = true ∧
    noneAfter (api_stop name true h1).events (isStopCall name)
      (isClearCall name) = true ∧
    occurs (api_restart name true mf h2 h3).events (isRestartCall name) = true ∧
    eachPrecededBy (api_restart name true mf h2 h3).events (isRestartCall name)
      (isClearCall name) = true ∧
    eachFollowedBy (api_restart name true mf h2 h3).events (isRestartCall name)
      (isSetNetMode name (resolvePersistedMode mf)) = true := by
  simp [api_stop, api_restart, occurs, eachPrecededBy, eachPrecededByAux,
    eachFollowedBy, noneAfter, noneAfterAux, isStopCall, isClearCall,
    isRestartCall, isSetNetMode]

/-- The events `api_nuke` emits when every removal succeeds: for each
owned sandbox, the helper clearing call followed by the force-remove. -/
def expectedNukeEvents : List NukeContainer → List Event
  | [] => []
  | c :: cs =>
    Event.setNet c.name "open" :: Event.containerRemove c.name ::
      expectedNukeEvents cs

theorem nukeLoop_ok (cs : List NukeContainer) :
    ∀ (evs : List Event) (count : Nat), (∀ c ∈ cs, c.removeFails = false) →
      nukeLoop cs evs count =
        (evs ++ expectedNukeEvents cs, some (count + cs.length)) := by
  induction cs with
  | nil => intro evs count _; simp [nukeLoop, expectedNukeEvents]
  | cons c cs ih =>
    intro evs count h
    have hc : c.removeFails = false := h c (List.mem_cons_self c cs)
    simp only [nukeLoop, hc, Bool.false_eq_true, if_false]
    rw [ih _ _ (fun d hd => h d (List.mem_cons_of_mem c hd))]
    simp [expectedNukeEvents, Prod.ext_iff, List.append_assoc]
    omega

/-- C2 counterexample: with two owned sandboxes where the force-remove of
the first raises, the nuke handler aborts -- the second sandbox is never
removed, the mode files are never cleared, and no removed count is
returned (the request fails).  This refutes the best-effort sweep claim. -/
theorem nuke_abort_counterexample :
    (api_nuke [⟨"a", true, true⟩, ⟨"b", false, true⟩]).2 = none ∧
    occurs (api_nuke [⟨"a", true, true⟩, ⟨"b", false, true⟩]).1
      (isRemoveCall "b") = false ∧
    occurs (api_nuke [⟨"a", true, true⟩, ⟨"b", false, true⟩]).1
      (fun e => e == Event.modeDeleteAll) = false := by
  decide

/-- C2 (amended): when the force-remove of every owned sandbox succeeds,
nukeAll clears rules and force-removes each of them, then clears the
entire ModeStore, and returns the count removed, and this holds for any
helper outcomes (a helper failure never aborts the sweep because its
result is discarded); but a raising force-remove on one sandbox aborts
processing of the remaining sandboxes and of the ModeStore cleanup. -/
theorem nuke_best_effort (cs : List NukeContainer)
    (h : ∀ c ∈ cs, c.removeFails = false) :
    api_nuke cs =
      (expectedNukeEvents cs ++ [Event.modeDeleteAll], some cs.length) := by
  simp [api_nuke, nukeLoop_ok cs [] 0 h]

/-- C2 witness: the amended theorem at a concrete pair of sandboxes, one
of them with a failing helper. -/
theorem nuke_best_effort_witness :
    api_nuke [⟨"a", false, false⟩, ⟨"b", false, true⟩] =
      (expectedNukeEvents [⟨"a", false, false⟩, ⟨"b", false, true⟩] ++
        [Event.modeDeleteAll], some 2) :=
  nuke_best_effort [⟨"a", false, false⟩, ⟨"b", false, true⟩] (by decide)

/-- C3 counterexample: a helper failure is silently discarded, not
surfaced.  The stop handler (and the create handler after the container
is created) produce the identical outcome -- same response, same (empty)
log -- whether the helper fails or succeeds, and the response reports
success. -/
theorem helper_failure_silent_counterexample :
    api_stop "lab" true false = api_stop "lab" true true ∧
    (api_stop "lab" true false).logs = [] ∧
    (api_stop "lab" true false).resp.ok = true ∧
    api_create "lab" (some "none") ⟨false, true, [], false, false, false⟩ =
      api_create "lab" (some "none") ⟨false, true, [], false, false, true⟩ ∧
    (api_create "lab" (some "none")
      ⟨false, true, [], false, false, false⟩).logs = [] ∧
    (api_create "lab" (some "none")
      ⟨false, true, [], false, false, false⟩).resp.ok = true := by
  decide

/-- C3 (amended): in every lifecycle transition that invokes the
privileged helper, a helper failure is non-fatal to the container
operation already performed (the handler still reports success), but it
is never surfaced: the outcome -- events, logs and response -- is
independent of the helper result, and the log stays empty. -/
theorem helper_result_discarded (name rawName : String)
    (mf net? : Option String) (env : CreateEnv) (ho h1 h2 : Bool) :
    api_stop name true ho = api_stop name true true ∧
    (api_stop name true ho).resp.ok = true ∧
    (api_stop name true ho).logs = [] ∧
    api_start name true mf ho = api_start name true mf true ∧
    api_restart name true mf h1 h2 = api_restart name true mf true true ∧
    api_remove name true true ho = api_remove name true true true ∧
    api_create rawName net? env =
      api_create rawName net?
        ⟨env.nameExists, env.sshKeyPresent, env.usedPorts, env.runFails,
          env.modeWriteFails, true⟩ := by
  exact ⟨rfl, rfl, rfl, rfl, rfl, rfl, rfl⟩

/-- C4 counterexample: a ModeStore write failure after the container has
been successfully created is not reported as created: the handler
answers a 500 internal error (ok = false), even though the container run
happened and no rollback removal is issued. -/
theorem create_modewrite_failure_counterexample :
    (api_create "demo" (some "web")
      ⟨false, true, [], false, true, true⟩).resp.status = 500 ∧
    (api_create "demo" (some "web")
      ⟨false, true, [], false, true, true⟩).resp.ok = false ∧
    occurs (api_create "demo" (some "web")
      ⟨false, true, [], false, true, true⟩).events (isRunCall "demo") = true ∧
    occurs (api_create "demo" (some "web")
      ⟨false, true, [], false, true, true⟩).events
      (isRemoveCall "demo") = false := by
  decide

/-- C4 (amended): after the container has been successfully created, a
network-policy helper failure still reports the operation as created
(success, status 200), because the helper result is discarded; a
ModeStore write failure instead reports a 500 internal error, while the
sandbox still exists -- the container run event happened and no
automatic rollback removal is performed. -/
theorem create_post_creation_failure_outcomes (name : String)
    (net? : Option String) (env : CreateEnv) (hv : validName (pyStrip name) = true)
    (hex : env.nameExists = false) (hssh : env.sshKeyPresent = true)
    (hrun : env.runFails = false) :
    (env.modeWriteFails = false →
      (api_create name net? env).resp.ok = true ∧
      (api_create name net? env).resp.status = 200 ∧
      occurs (api_create name net? env).events (isRunCall (pyStrip name)) = true) ∧
    (env.modeWriteFails = true →
      (api_create name net? env).resp.ok = false ∧
      (api_create name net? env).resp.status = 500 ∧
      occurs (api_create name net? env).events (isRunCall (pyStrip name)) = true ∧
      occurs (api_create name net? env).events
        (isRemoveCall (pyStrip name)) = false) := by
  constructor <;> intro hmw <;>
    simp [api_create, hv, hex, hssh, hrun, hmw, occurs, isRunCall, isRemoveCall]

/-- C4 witness: the amended theorem at a concrete request whose mode-file
write fails after a successful container creation. -/
theorem create_post_creation_failure_witness :
    ((⟨false, true, [], false, true, true⟩ : CreateEnv).modeWriteFails = false →
      (api_create "demo" (some "web")
        ⟨false, true, [], false, true, true⟩).resp.ok = true ∧
      (api_create "demo" (some "web")
        ⟨false, true, [], false, true, true⟩).resp.status = 200 ∧
      occurs (api_create "demo" (some "web")
        ⟨false, true, [], false, true, true⟩).events
        (isRunCall (pyStrip "demo")) = true) ∧
    ((⟨false, true, [], false, true, true⟩ : CreateEnv).modeWriteFails = true →
      (api_create "demo" (some "web")
        ⟨false, true, [], false, true, true⟩).resp.ok = false ∧
      (api_create "demo" (some "web")
        ⟨false, true, [], false, true, true⟩).resp.status = 500 ∧
      occurs (api_create "demo" (some "web")
        ⟨false, true, [], false, true, true⟩).events
        (isRunCall (pyStrip "demo")) = true ∧
      occurs (api_create "demo" (some "web")
        ⟨false, true, [], false, true, true⟩).events
        (isRemoveCall (pyStrip "demo")) = false) :=
  create_post_creation_failure_outcomes "demo" (some "web")
    ⟨false, true, [], false, true, true⟩ (by decide) rfl rfl rfl

/-- C5 counterexample: the claim says a container label equal to a mode
of the current set resolves to itself, in particular a sandbox labeled
"packages" with no mode file resolves to mode packages.  In the code the
registry label table sends "packages" to "web". -/
theorem label_packages_counterexample :
    registryNetMode none (some "packages") = "web" ∧
    labelResolve "packages" ≠ "packages" := by
  decide

/-- C5 (amended): the legacy label table resolves every input into the
current set (any unknown input falls back to "none"), and the labels
"none", "web" and "open" resolve to themselves; but the label "packages"
resolves to "web", so the mapping is not lossless on the current mode
"packages" (a sandbox labeled "packages" with no mode file is listed
with mode web). -/
theorem label_map_resolution (s : String) :
    labelResolve "none" = "none" ∧ labelResolve "web" = "web" ∧
    labelResolve "open" = "open" ∧ labelResolve "packages" = "web" ∧
    (labelResolve s = "none" ∨ labelResolve s = "web" ∨
      labelResolve s = "open") := by
  refine ⟨by decide, by decide, by decide, by decide, ?_⟩
  simp only [labelResolve, label_map, List.lookup]
  repeat' split
  all_goals simp_all

/-- C6 counterexample: the claim says the input "--net=full" resolves to
open also where create normalizes the requested mode; in `api_create`
the table `mode_map` has no entry for "--net=full", so it resolves to
the default "none", not "open". -/
theorem create_netfull_counterexample :
    createResolveMode "--net=full" = "none" ∧ ("none" : String) ≠ "open" := by
  decide

/-- C6 (amended): in the registry label mapping, "--net=full", "full" and
"open" all resolve to open, and "--net=none", "none" or an absent label
resolve to none; in create, "full" and "open" resolve to open and
"none", "--net=none", an absent value or any other unknown value (in
particular "--net=full") resolve to the fail-safe default none. -/
theorem legacy_mode_mapping :
    labelResolve "--net=full" = "open" ∧ labelResolve "full" = "open" ∧
    labelResolve "open" = "open" ∧ labelResolve "--net=none" = "none" ∧
    labelResolve "none" = "none" ∧ registryNetMode none none = "none" ∧
    createResolveMode "full" = "open" ∧ createResolveMode "open" = "open" ∧
    createResolveMode "none" = "none" ∧
    createResolveMode "--net=none" = "none" ∧
    createResolveMode ((none : Option String).getD "none") = "none" ∧
    createResolveMode "--net=full" = "none" := by
  decide

/-- C9: for a sandbox whose mode file is absent, the start and restart
handlers resolve the mode from the mode file only and apply the default
"none" to the helper regardless of any container label, while the list
read path resolves the same sandbox through the legacy label mapping; for
the label "open" the listed mode is "open" while start applies "none",
so the two can differ for the same sandbox. -/
theorem start_mode_differs_from_list_mode (name label : String)
    (ho h1 h2 : Bool) :
    occurs (api_start name true none ho).events (isSetNetMode name "none") =
      true ∧
    occurs (api_restart name true none h1 h2).events
      (isSetNetMode name "none") = true ∧
    registryNetMode none (some label) = labelResolve label ∧
    registryNetMode none (some "open") = "open" ∧
    registryNetMode none (some "open") ≠ resolvePersistedMode none := by
  refine ⟨?_, ?_, rfl, by decide, by decide⟩ <;>
    simp [api_start, api_restart, occurs, isSetNetMode, resolvePersistedMode]

/-- C7 counterexample: the name "-" is non-empty and matches the pattern
of allowed characters, yet create rejects it: after removing hyphens and
underscores the remainder is empty and the python `isalnum` check on the
empty string fails. -/
theorem name_pattern_counterexample :
    specNamePattern "-" = true ∧ validName "-" = false := by
  decide

theorem validNameL_eq (l : List Char) :
    validNameL l =
      ((!l.isEmpty &&
          l.all (fun c => c.isAlpha || c.isDigit || c == '-' || c == '_')) &&
        l.any pyIsAlnumChar) := by
  rw [Bool.eq_iff_iff]
  simp only [validNameL, pyIsAlnumL, Bool.and_eq_true, Bool.not_eq_true',
    List.isEmpty_eq_false, List.all_eq_true, List.any_eq_true, ne_eq]
  constructor
  · rintro ⟨hne, hf, hall⟩
    obtain ⟨c0, hc0⟩ := List.exists_mem_of_ne_nil _ hf
    obtain ⟨hc01, _⟩ := List.mem_filter.mp hc0
    obtain ⟨hc0l, _⟩ := List.mem_filter.mp hc01
    refine ⟨⟨hne, ?_⟩, ⟨c0, hc0l, hall c0 hc0⟩⟩
    intro c hc
    by_cases hd : c = '-'
    · simp [hd]
    · by_cases hu : c = '_'
      · simp [hu]
      · have hm : c ∈ (l.filter (fun c => c != '-')).filter (fun c => c != '_') :=
          List.mem_filter.mpr ⟨List.mem_filter.mpr ⟨hc, by simp [hd]⟩, by simp [hu]⟩
        have ha := hall c hm
        simp only [pyIsAlnumChar, Bool.or_eq_true] at ha
        simp only [Bool.or_eq_true, beq_iff_eq]
        tauto
  · rintro ⟨⟨hne, hclass⟩, c0, hc0l, hc0a⟩
    have hc0d : c0 ≠ '-' := fun e => by rw [e] at hc0a; simp [pyIsAlnumChar] at hc0a
    have hc0u : c0 ≠ '_' := fun e => by rw [e] at hc0a; simp [pyIsAlnumChar] at hc0a
    have hc0f : c0 ∈ (l.filter (fun c => c != '-')).filter (fun c => c != '_') :=
      List.mem_filter.mpr ⟨List.mem_filter.mpr ⟨hc0l, by simp [hc0d]⟩, by simp [hc0u]⟩
    refine ⟨hne, List.ne_nil_of_mem hc0f, ?_⟩
    intro c hc
    obtain ⟨hc1, hcu⟩ := List.mem_filter.mp hc
    obtain ⟨hcl, hcd⟩ := List.mem_filter.mp hc1
    have hcls := hclass c hcl
    simp only [Bool.or_eq_true, beq_iff_eq] at hcls
    simp only [bne_iff_ne, ne_eq] at hcd hcu
    simp only [pyIsAlnumChar, Bool.or_eq_true]
    tauto

/-- C7 (amended): for an ASCII name, create accepts it exactly when it is
non-empty, matches `[A-Za-z0-9_-]+`, and contains at least one character
that is a letter or digit -- names consisting solely of hyphens and
underscores are rejected, unlike what the pattern alone admits (and for
non-ASCII input the Unicode-aware python `isalnum` additionally accepts
names with non-ASCII alphanumerics, outside this ASCII model); every
rejected name yields a 400 validation error before any container call. -/
theorem name_validation_characterization (name : String)
    (net? : Option String) (env : CreateEnv)
    (hascii : name.toList.all (fun c => c.toNat < 128) = true) :
    validName name = (specNamePattern name && name.toList.any pyIsAlnumChar) ∧
    (validName (pyStrip name) = false →
      (api_create name net? env).resp.status = 400 ∧
      (api_create name net? env).events = []) := by
  constructor
  · exact validNameL_eq name.toList
  · intro hv
    simp [api_create, hv]

/-- C7 witness: the amended theorem at the concrete ASCII name "--",
which matches the character pattern yet is rejected with a 400. -/
theorem name_validation_witness :
    (validName "--" =
      (specNamePattern "--" && "--".toList.any pyIsAlnumChar)) ∧
    (validName (pyStrip "--") = false →
      (api_create "--" (some "web")
        ⟨false, true, [], false, false, true⟩).resp.status = 400 ∧
      (api_create "--" (some "web")
        ⟨false, true, [], false, false, true⟩).events = []) :=
  name_validation_characterization "--" (some "web")
    ⟨false, true, [], false, false, true⟩ (by decide)

theorem rateLoop_allAllowed (N : Nat) (W : ℚ) :
    ∀ (ts hist : List ℚ),
      (∀ x ∈ hist ++ ts, ∀ y ∈ hist ++ ts, x - y < W) →
      hist.length + ts.length ≤ N →
      rateLoop N W hist ts = (List.replicate ts.length (true, 0), hist ++ ts) := by
  intro ts
  induction ts with
  | nil => intro hist _ _; simp [rateLoop]
  | cons t ts ih =>
    intro hist h hlen
    have hprune : hist.filter (fun u => decide (t - u < W)) = hist := by
      rw [List.filter_eq_self]
      intro a ha
      simp only [decide_eq_true_eq]
      exact h t (by simp) a (by simp [ha])
    have hlt : ¬(N ≤ hist.length) := by
      simp only [List.length_cons] at hlen; omega
    have hsplice : (hist ++ [t]) ++ ts = hist ++ t :: ts := by simp
    have ihr := ih (hist ++ [t])
      (by rw [hsplice]; exact h)
      (by simp only [List.length_append, List.length_singleton,
            List.length_cons, List.length_nil] at hlen ⊢; omega)
    simp only [rateLoop, rate_limit_check, hprune, hlt, if_false, ihr]
    simp [hsplice, List.replicate_succ]

theorem rateLoop_append (N : Nat) (W : ℚ) :
    ∀ (ts1 ts2 hist : List ℚ),
      rateLoop N W hist (ts1 ++ ts2) =
        ((rateLoop N W hist ts1).1 ++
          (rateLoop N W (rateLoop N W hist ts1).2 ts2).1,
         (rateLoop N W (rateLoop N W hist ts1).2 ts2).2) := by
  intro ts1
  induction ts1 with
  | nil => intro ts2 hist; simp [rateLoop]
  | cons t ts ih =>
    intro ts2 hist
    simp only [List.cons_append, rateLoop, List.append_eq]
    rw [ih]

/-- C8 counterexample: with maxRequests 1 and window 60, a first check at
time 0 is admitted and a second at time 30 is rejected; the time
remaining until the oldest retained timestamp ages out of the window is
60 - (30 - 0) = 30 seconds, but the returned retryAfter is
int(60 - 30) + 1 = 31, not 30 -- the claimed equality fails. -/
theorem retry_after_counterexample :
    (runChecks [(0 : ℚ), 30] 1 60).1 = [(true, 0), (false, 31)] ∧
    ((31 : ℤ) ≠ 60 - (30 - 0)) := by
  refine ⟨?_, by decide⟩
  norm_num [runChecks, rateLoop, rate_limit_check, pyInt]

/-- C8 (amended): for every key, with maxRequests N (at least 1) and
window W, given N+1 checks whose times all lie within one W-second span
(every pairwise difference below W), the first N checks are admitted and
the (N+1)th is rejected; the rejection retryAfter equals the integer
truncation of the time remaining until the first (oldest, for
nondecreasing times) of the N retained timestamps ages out of the
window, plus one second -- not that remaining time itself. -/
theorem rate_limiter_sliding_window (N : Nat) (W : ℚ) (init : List ℚ)
    (tN : ℚ) (hN : 1 ≤ N) (hlen : init.length = N)
    (hspan : ∀ x ∈ init ++ [tN], ∀ y ∈ init ++ [tN], x - y < W) :
    (runChecks (init ++ [tN]) N W).1 =
      List.replicate N (true, 0) ++
        [(false, pyInt (W - (tN - init.headD 0)) + 1)] := by
  have hadm := rateLoop_allAllowed N W init []
    (by
      intro x hx y hy
      simp only [List.nil_append] at hx hy
      exact hspan x (List.mem_append_left _ hx) y (List.mem_append_left _ hy))
    (by simp [hlen])
  have hprune : init.filter (fun u => decide (tN - u < W)) = init := by
    rw [List.filter_eq_self]
    intro a ha
    simp only [decide_eq_true_eq]
    exact hspan tN (by simp) a (List.mem_append_left _ ha)
  have hfin : rateLoop N W init [tN] =
      ([(false, pyInt (W - (tN - init.headD 0)) + 1)], init) := by
    simp [rateLoop, rate_limit_check, hprune, hlen]
  rw [runChecks, rateLoop_append N W init [tN] [], hadm]
  simp only [List.nil_append, hfin, hlen]

/-- C8 witness: the amended theorem at maxRequests 2, window 60 and the
concrete check times 0, 10 and 30. -/
theorem rate_limiter_sliding_window_witness :
    (runChecks ([(0 : ℚ), 10] ++ [30]) 2 60).1 =
      List.replicate 2 (true, 0) ++
        [(false, pyInt (60 - (30 - [(0 : ℚ), 10].headD 0)) + 1)] :=
  rate_limiter_sliding_window 2 60 [0, 10] 30 (by norm_num) rfl
    (by
      intro x hx y hy
      simp only [List.mem_append, List.mem_cons, List.mem_singleton,
        List.not_mem_nil, or_false] at hx hy
      rcases hx with (rfl | rfl) | rfl <;> rcases hy with (rfl | rfl) | rfl <;>
        norm_num)

/-- C10: for requests on non-exempt paths under an authenticated session,
the CSRF token comparison in the request gate is performed exactly when
the method is POST; in particular GET /logout passes the gate for any
authenticated session with no CSRF token supplied, and the logout handler
clears the session (a state-changing operation). -/
theorem csrf_check_iff_post (r : Request) (ca : Bool) (s : Session)
    (h1 : r.path ≠ "/login") (h2 : r.path ≠ "/favicon.ico")
    (h3 : r.authenticated = true) (hs : s.authenticated = true) :
    ((require_auth r ca).2 = true ↔ r.method = "POST") ∧
    (require_auth (logoutRequest s) ca).1 = GateResult.proceed ∧
    (logoutHandler s).1 = Session.cleared := by
  have e1 : (r.path == "/login") = false := beq_eq_false_iff_ne.mpr h1
  have e2 : (r.path == "/favicon.ico") = false := beq_eq_false_iff_ne.mpr h2
  refine ⟨?_, ?_, rfl⟩
  · by_cases hm : r.method = "POST"
    · have em : (r.method == "POST") = true := beq_iff_eq.mpr hm
      simp only [require_auth, e1, e2, h3, em, hm]
      simp only [Bool.or_self, Bool.false_eq_true, if_false, Bool.not_true,
        beq_self_eq_true, if_true, iff_true]
      split <;> try rfl
      split <;> rfl
    · have em : (r.method == "POST") = false := beq_eq_false_iff_ne.mpr hm
      simp [require_auth, e1, e2, h3, em, hm]
  · simp [require_auth, logoutRequest, hs]

/-- C10 witness: the theorem applied to a concrete GET request on a
protected path and a concrete authenticated session. -/
theorem csrf_check_iff_post_witness :
    ((require_auth ⟨"/api/labs", "GET", true, "", "tok"⟩ true).2 = true ↔
      ("GET" : String) = "POST") ∧
    (require_auth (logoutRequest ⟨true, "admin", "tok"⟩) true).1 =
      GateResult.proceed ∧
    (logoutHandler ⟨true, "admin", "tok"⟩).1 = Session.cleared :=
  csrf_check_iff_post ⟨"/api/labs", "GET", true, "", "tok"⟩ true
    ⟨true, "admin", "tok"⟩ (by decide) (by decide) rfl rfl

end Isolab
